import Mathlib

/-!
Verification of the quantity-audit engine (`audit.py`).

The engine audits a bill-of-quantities table: per row it recomputes an
expected quantity from free-text arithmetic (`safe_eval_numeric`), from
`ROUND(...)` declared formulas (`eval_e_round_ref_formula`,
`eval_e_round_pure_formula`), derives a rounding-based tolerance
(`tol_from_round_digits`), classifies the row (`classify_row_type`) and
emits `ErrorRecord`s across four check kinds (`calc_text_check`,
`unit_weight`, `allowance_policy_check`, `allowance_check`).

Modelling conventions:
* Python floats are modelled exactly over `ℚ`; decimal literals such as
  `0.6`, `1.04` and `1e-9` are taken at their exact decimal value.
  Arithmetic is expressed through the kernel-computable wrappers
  `qadd`/`qsub`/`qmul`/`qdiv`/`qabs`/`qfloor` below, each proved equal to
  the corresponding Mathlib operation on `ℚ`.
* `round(x, n)` is modelled as round-half-to-even at `n` decimal digits.
* Regular-expression searches from the source are modelled by equivalent
  deterministic scanners over `List Char` (ASCII classes for `[A-Za-z]`
  and `\d`, as in the data the audit handles).
* The restricted `ast`-based evaluator is modelled by a recursive-descent
  parser producing exactly the allowed node set (numeric literals with
  optional fraction/exponent, unary `+`/`-`, binary `+ - * / % // **`,
  parentheses); hexadecimal/underscore literals, strings and names are
  modelled as parse failures, which the Python walk-check also rejects or
  `as_float` maps to `None`.  Overflow to `inf` cannot occur over `ℚ`.
* Spreadsheet I/O is modelled by a formula table `Table` (cell text) and
  a value view `String → Option ℚ` giving `as_float` of each cell's
  cached value by cell name.
-/

namespace QtyAudit

/-- Kernel-computable addition on `ℚ` (the library operation is
`irreducible`; this wrapper is proved equal to it below). -/
def qadd (a b : ℚ) : ℚ := Rat.divInt (a.num * b.den + b.num * a.den) (a.den * b.den)

/-- Kernel-computable negation on `ℚ`. -/
def qneg (a : ℚ) : ℚ := Rat.divInt (-a.num) a.den

/-- Kernel-computable subtraction on `ℚ`. -/
def qsub (a b : ℚ) : ℚ := Rat.divInt (a.num * b.den - b.num * a.den) (a.den * b.den)

/-- Kernel-computable multiplication on `ℚ`. -/
def qmul (a b : ℚ) : ℚ := Rat.divInt (a.num * b.num) (a.den * b.den)

/-- Kernel-computable division on `ℚ` (0 on a zero divisor, as in Mathlib). -/
def qdiv (a b : ℚ) : ℚ := Rat.divInt (a.num * b.den) (a.den * b.num)

/-- Kernel-computable absolute value on `ℚ`. -/
def qabs (a : ℚ) : ℚ := Rat.divInt (a.num.natAbs : Int) a.den

/-- Kernel-computable floor on `ℚ`. -/
def qfloor (a : ℚ) : Int := a.num.fdiv a.den

theorem qadd_eq (a b : ℚ) : qadd a b = a + b := by
  have ha : ((a.den : Int) : ℚ) ≠ 0 := by exact_mod_cast a.den_nz
  have hb : ((b.den : Int) : ℚ) ≠ 0 := by exact_mod_cast b.den_nz
  unfold qadd
  rw [Rat.divInt_eq_div]
  conv_rhs => rw [← Rat.num_div_den a, ← Rat.num_div_den b]
  push_cast
  field_simp

theorem qneg_eq (a : ℚ) : qneg a = -a := by
  unfold qneg
  rw [Rat.divInt_eq_div]
  conv_rhs => rw [← Rat.num_div_den a]
  push_cast
  ring

theorem qsub_eq (a b : ℚ) : qsub a b = a - b := by
  have ha : ((a.den : Int) : ℚ) ≠ 0 := by exact_mod_cast a.den_nz
  have hb : ((b.den : Int) : ℚ) ≠ 0 := by exact_mod_cast b.den_nz
  unfold qsub
  rw [Rat.divInt_eq_div]
  conv_rhs => rw [← Rat.num_div_den a, ← Rat.num_div_den b]
  push_cast
  field_simp
  ring

theorem qmul_eq (a b : ℚ) : qmul a b = a * b := by
  unfold qmul
  rw [Rat.divInt_eq_div]
  conv_rhs => rw [← Rat.num_div_den a, ← Rat.num_div_den b]
  push_cast
  rw [div_mul_div_comm]

theorem qdiv_eq (a b : ℚ) : qdiv a b = a / b := by
  unfold qdiv
  rcases eq_or_ne b 0 with hb0 | hb0
  · subst hb0
    simp [Rat.divInt_eq_div]
  · have hbnum : (b.num : ℚ) ≠ 0 := by
      exact_mod_cast Rat.num_ne_zero.mpr hb0
    have ha : ((a.den : Int) : ℚ) ≠ 0 := by exact_mod_cast a.den_nz
    have hb : ((b.den : Int) : ℚ) ≠ 0 := by exact_mod_cast b.den_nz
    rw [Rat.divInt_eq_div]
    conv_rhs => rw [← Rat.num_div_den a, ← Rat.num_div_den b]
    push_cast
    field_simp

theorem qabs_eq (a : ℚ) : qabs a = |a| := by
  unfold qabs
  rcases le_or_lt 0 a with h | h
  · have hnum : 0 ≤ a.num := Rat.num_nonneg.mpr h
    rw [abs_of_nonneg h, Int.natAbs_of_nonneg hnum, Rat.num_divInt_den]
  · have hnum : a.num < 0 := Rat.num_neg.mpr h
    rw [abs_of_neg h, Int.ofNat_natAbs_of_nonpos (le_of_lt hnum), ← qneg_eq, qneg]

theorem qfloor_eq (a : ℚ) : qfloor a = Int.floor a := by
  unfold qfloor
  rw [Int.fdiv_eq_ediv _ (by exact_mod_cast Nat.zero_le a.den), Rat.floor_def]

theorem qabs_qsub_eq (a b : ℚ) : qabs (qsub a b) = |a - b| := by
  rw [qabs_eq, qsub_eq]

/-- Nat power on `ℚ` by plain structural recursion (kernel-computable). -/
def npowQ (x : ℚ) : Nat → ℚ
  | 0 => 1
  | n + 1 => qmul x (npowQ x n)

theorem npowQ_eq (x : ℚ) (n : Nat) : npowQ x n = x ^ n := by
  induction n with
  | zero => rfl
  | succ n ih => rw [npowQ, ih, qmul_eq, pow_succ, mul_comm]

/-- Integer power on `ℚ`; models Python `x ** n` for integer `n`. -/
def zpowQ (x : ℚ) (n : Int) : ℚ :=
  if 0 ≤ n then npowQ x n.toNat else qdiv 1 (npowQ x (-n).toNat)

/-- Model of `10 ** d` for an integer digit count `d`, as used by the source. -/
def pow10 (d : Int) : ℚ := zpowQ 10 d

theorem pow10_pos (d : Int) : 0 < pow10 d := by
  unfold pow10 zpowQ
  split
  · rw [npowQ_eq]
    positivity
  · rw [qdiv_eq, npowQ_eq]
    positivity

/-- Round to the nearest integer, ties to even: the rounding Python's
`round` applies. -/
def roundHalfEven (x : ℚ) : Int :=
  let n := qfloor x
  let frac := qsub x (Rat.ofInt n)
  if frac < Rat.divInt 1 2 then n
  else if Rat.divInt 1 2 < frac then n + 1
  else if n % 2 = 0 then n else n + 1

/-- Python `round(x, d)`: round to `d` decimal digits (may be negative). -/
def py_round (x : ℚ) (d : Int) : ℚ :=
  qdiv (Rat.ofInt (roundHalfEven (qmul x (pow10 d)))) (pow10 d)

/-- Model of `tol_from_round_digits` (audit.py): `0.6 * (10 ** (-round_digits))`. -/
def tol_from_round_digits (round_digits : Int) : ℚ :=
  qmul (Rat.divInt 6 10) (pow10 (-round_digits))

theorem tol_from_round_digits_pos (d : Int) : 0 < tol_from_round_digits d := by
  unfold tol_from_round_digits
  rw [qmul_eq, Rat.divInt_eq_div]
  have := pow10_pos (-d)
  positivity

/-- Strip leading and trailing whitespace (kernel-computable `trim`). -/
def strTrim (s : String) : String :=
  String.mk (((s.data.dropWhile Char.isWhitespace).reverse.dropWhile Char.isWhitespace).reverse)

/-- Lower-case every character (kernel-computable `toLower`). -/
def strLower (s : String) : String := String.mk (s.data.map Char.toLower)

/-- Upper-case every character (kernel-computable `toUpper`). -/
def strUpper (s : String) : String := String.mk (s.data.map Char.toUpper)

/-- Model of `normalize_text` (audit.py): stringify and strip; cells are modelled
as their text, so this is trimming. -/
def normalize_text (s : String) : String := strTrim s

/-- Does `p` occur at the head of `l`? -/
def listStartsWith : List Char → List Char → Bool
  | [], _ => true
  | _ :: _, [] => false
  | a :: as, b :: bs => a = b && listStartsWith as bs

/-- Does `needle` occur as a contiguous run inside `hay`?  Models Python
`needle in hay` on strings. -/
def charsContains : List Char → List Char → Bool
  | hay, needle =>
    listStartsWith needle hay ||
      match hay with
      | [] => false
      | _ :: t => charsContains t needle

/-- Python `needle in hay` for strings. -/
def strContains (hay needle : String) : Bool := charsContains hay.data needle.data

/-- One step of `re.search(r"\$?[A-Za-z]{1,3}\$?\d+", expr)`: a match
exists iff some ASCII letter is immediately followed by a digit, or by
`$` and then a digit (the optional anchors and longer letter runs add
nothing to a search). -/
def hcrAux : List Char → Bool
  | c :: d :: rest =>
      (c.isAlpha &&
        (d.isDigit ||
          (d = '$' &&
            match rest with
            | e :: _ => e.isDigit
            | [] => false))) ||
      hcrAux (d :: rest)
  | _ => false

/-- Model of `has_cell_reference` (audit.py). -/
def has_cell_reference (expr : String) : Bool := hcrAux expr.data

/-- Numeric value of an ASCII digit run. -/
def digitsToNat (l : List Char) : Nat :=
  l.foldl (fun a c => a * 10 + (c.toNat - '0'.toNat)) 0

/-- Exact value of a decimal literal `ip . fp × 10^ex`. -/
def decValue (ip fp : List Char) (ex : Int) : ℚ :=
  qmul (qadd (Rat.ofInt (digitsToNat ip)) (qdiv (Rat.ofInt (digitsToNat fp)) (pow10 (fp.length : Int)))) (pow10 ex)

/-- Skip regex `\s*` (any whitespace). -/
def skipWsR (cs : List Char) : List Char := cs.dropWhile Char.isWhitespace

/-- Case-insensitive literal match of `pat` (given lower-case) against the
head of `cs`; returns the rest on success. -/
def matchCI : List Char → List Char → Option (List Char)
  | [], cs => some cs
  | _ :: _, [] => none
  | p :: ps, c :: cs => if c.toLower = p then matchCI ps cs else none

/-- One attempt of the percent pattern `(\d+(\.\d+)?)%` anchored at the
head; returns the first capture group. -/
def pctTry (cs : List Char) : Option (List Char) :=
  let (d1, r1) := cs.span Char.isDigit
  if d1.isEmpty then none else
  match r1 with
  | '.' :: r2 =>
    let (d2, r3) := r2.span Char.isDigit
    if d2.isEmpty then none
    else
      match r3 with
      | '%' :: _ => some (d1 ++ '.' :: d2)
      | _ => none
  | '%' :: _ => some d1
  | _ => none

/-- Leftmost search of the percent pattern. -/
def pctScan : List Char → Option (List Char)
  | [] => none
  | c :: rest =>
    match pctTry (c :: rest) with
    | some g => some g
    | none => pctScan rest

/-- First capture group of `percent_regex.search(bigo)` under the default
pattern `(\d+(\.\d+)?)%` (audit.py `main`, the configured default). -/
def percentFirst (s : String) : Option String := (pctScan s.data).map String.mk

/-- Parse `[0-9]+(\.[0-9]+)?` at the head (with the regex backtracking:
a bare trailing dot is left unconsumed). -/
def parsePlainDecimal (cs : List Char) : Option (ℚ × List Char) :=
  let (d1, r1) := cs.span Char.isDigit
  if d1.isEmpty then none else
  match r1 with
  | '.' :: r2 =>
    let (d2, r3) := r2.span Char.isDigit
    if d2.isEmpty then some (decValue d1 [] 0, r1)
    else some (decValue d1 d2 0, r3)
  | _ => some (decValue d1 [] 0, r1)

/-- Python `float(s)` restricted to the digit strings the source feeds it. -/
def decFloat (s : String) : Option ℚ :=
  match parsePlainDecimal s.data with
  | some (q, []) => some q
  | _ => none

/-- Model of `findall(r"\*\s*([0-9]+(?:\.[0-9]+)?)", ·)`: all numbers directly
multiplied (preceded by `*`), non-overlapping, left to right.  Fuel is the
input length; every continuation consumes at least one character. -/
def multScanF : Nat → List Char → List String
  | 0, _ => []
  | _ + 1, [] => []
  | f + 1, '*' :: rest =>
    let r1 := rest.dropWhile Char.isWhitespace
    let (d1, r2) := r1.span Char.isDigit
    if d1.isEmpty then multScanF f rest
    else
      match r2 with
      | '.' :: r3 =>
        let (d2, r4) := r3.span Char.isDigit
        if d2.isEmpty then String.mk d1 :: multScanF f r2
        else String.mk (d1 ++ '.' :: d2) :: multScanF f r4
      | _ => String.mk d1 :: multScanF f r2
  | f + 1, _ :: rest => multScanF f rest

/-- The `*`-prefixed numeric factors found in a basis text. -/
def multCandidates (s : String) : List String := multScanF s.data.length s.data

/-- Model of `d_text.replace(",", "")`. -/
def strip_commas (s : String) : String := String.mk (s.data.filter (fun c => c ≠ ','))

/-- Model of `d_has_multiplier` (audit.py): does the basis text contain a
`*`-prefixed number within `1e-9` of `mult`? -/
def d_has_multiplier (d_text : String) (mult : ℚ) : Bool :=
  if d_text = "" then false
  else
    (multCandidates (strip_commas d_text)).any (fun s =>
      match decFloat s with
      | some q => decide (qabs (qsub q mult) < Rat.divInt 1 1000000000)
      | none => false)

/-! ### The restricted expression evaluator (`safe_eval_numeric`) -/

/-- The binary operators admitted by the `allowed_nodes` walk in
`safe_eval_numeric` (audit.py): `Add Sub Mult Div Pow Mod FloorDiv`. -/
inductive BOp
  | add
  | sub
  | mul
  | div
  | mod
  | fdiv
  | pow
deriving DecidableEq

/-- The expression trees `safe_eval_numeric` accepts: `Constant` (numeric),
`UnaryOp` with `USub`/`UAdd`, and `BinOp` over the allowed operators. -/
inductive PExpr
  | num (q : ℚ)
  | neg (e : PExpr)
  | pos (e : PExpr)
  | bin (op : BOp) (a b : PExpr)
deriving DecidableEq

/-- One binary operation, Python semantics over exact rationals; errors are
the exceptions Python would raise (`ZeroDivisionError`, and non-integral
exponents, which `ℚ` cannot represent and the audit never exercises). -/
def evalB (op : BOp) (x y : ℚ) : Except String ℚ :=
  match op with
  | .add => .ok (qadd x y)
  | .sub => .ok (qsub x y)
  | .mul => .ok (qmul x y)
  | .div => if y = 0 then .error "division by zero" else .ok (qdiv x y)
  | .mod =>
    if y = 0 then .error "modulo by zero"
    else .ok (qsub x (qmul (Rat.ofInt (qfloor (qdiv x y))) y))
  | .fdiv => if y = 0 then .error "floor division by zero" else .ok (Rat.ofInt (qfloor (qdiv x y)))
  | .pow =>
    if y.den = 1 then
      if x = 0 && y.num < 0 then .error "zero to a negative power"
      else .ok (zpowQ x y.num)
    else .error "non-integral exponent"

/-- Evaluate a restricted tree; models the sandboxed `eval` call, with
exceptions as `Except.error`. -/
def evalE : PExpr → Except String ℚ
  | .num q => .ok q
  | .pos e => evalE e
  | .neg e =>
    match evalE e with
    | .ok v => .ok (qneg v)
    | .error msg => .error msg
  | .bin op a b =>
    match evalE a with
    | .error msg => .error msg
    | .ok x =>
      match evalE b with
      | .error msg => .error msg
      | .ok y => evalB op x y

/-- Tokenizer whitespace inside an expression (Python source spaces). -/
def skipWs (cs : List Char) : List Char := cs.dropWhile (fun c => c = ' ' || c = '\t')

/-- Exponent part of a numeric literal, after the `e`/`E`: optional sign
then digits. -/
def parseExpPart (cs : List Char) : Option (Int × List Char) :=
  match cs with
  | '+' :: r =>
    let (d, r2) := r.span Char.isDigit
    if d.isEmpty then none else some ((digitsToNat d : Int), r2)
  | '-' :: r =>
    let (d, r2) := r.span Char.isDigit
    if d.isEmpty then none else some (-(digitsToNat d : Int), r2)
  | _ =>
    let (d, r2) := cs.span Char.isDigit
    if d.isEmpty then none else some ((digitsToNat d : Int), r2)

/-- Attach an optional exponent to a parsed mantissa. -/
def withExp (ip fp : List Char) (r : List Char) : Option (ℚ × List Char) :=
  match r with
  | 'e' :: r2 =>
    match parseExpPart r2 with
    | some (ex, r3) => some (decValue ip fp ex, r3)
    | none => none
  | 'E' :: r2 =>
    match parseExpPart r2 with
    | some (ex, r3) => some (decValue ip fp ex, r3)
    | none => none
  | _ => some (decValue ip fp 0, r)

/-- Python decimal numeric literal: `digits [. digits] [exp]` or
`. digits [exp]` (hexadecimal, binary and underscore literals are not
modelled and fail the parse). -/
def parseNumber (cs : List Char) : Option (ℚ × List Char) :=
  let (ip, r1) := cs.span Char.isDigit
  if ip.isEmpty then
    match r1 with
    | '.' :: r2 =>
      let (fp, r3) := r2.span Char.isDigit
      if fp.isEmpty then none else withExp [] fp r3
    | _ => none
  else
    match r1 with
    | '.' :: r2 =>
      let (fp, r3) := r2.span Char.isDigit
      withExp ip fp r3
    | _ => withExp ip [] r1

mutual

/-- Production `expr := term (('+'|'-') term)*`, fuel-indexed. -/
def pExpr : Nat → List Char → Option (PExpr × List Char)
  | 0, _ => none
  | f + 1, cs =>
    match pTerm f cs with
    | some (a, r) => pExprTail f a r
    | none => none
termination_by structural f cs => f

/-- Left-associative tail of additive operators. -/
def pExprTail : Nat → PExpr → List Char → Option (PExpr × List Char)
  | 0, _, _ => none
  | f + 1, a, cs =>
    match skipWs cs with
    | '+' :: r =>
      match pTerm f r with
      | some (b, r2) => pExprTail f (.bin .add a b) r2
      | none => none
    | '-' :: r =>
      match pTerm f r with
      | some (b, r2) => pExprTail f (.bin .sub a b) r2
      | none => none
    | _ => some (a, cs)
termination_by structural f a cs => f

/-- Production `term := factor (('*'|'/'|'//'|'%') factor)*`. -/
def pTerm : Nat → List Char → Option (PExpr × List Char)
  | 0, _ => none
  | f + 1, cs =>
    match pFactor f cs with
    | some (a, r) => pTermTail f a r
    | none => none
termination_by structural f cs => f

/-- Left-associative tail of multiplicative operators (`**` never starts a
valid tail: the power level consumes it first). -/
def pTermTail : Nat → PExpr → List Char → Option (PExpr × List Char)
  | 0, _, _ => none
  | f + 1, a, cs =>
    match skipWs cs with
    | '*' :: '*' :: _ => some (a, cs)
    | '*' :: r =>
      match pFactor f r with
      | some (b, r2) => pTermTail f (.bin .mul a b) r2
      | none => none
    | '/' :: '/' :: r =>
      match pFactor f r with
      | some (b, r2) => pTermTail f (.bin .fdiv a b) r2
      | none => none
    | '/' :: r =>
      match pFactor f r with
      | some (b, r2) => pTermTail f (.bin .div a b) r2
      | none => none
    | '%' :: r =>
      match pFactor f r with
      | some (b, r2) => pTermTail f (.bin .mod a b) r2
      | none => none
    | _ => some (a, cs)
termination_by structural f a cs => f

/-- Production `factor := ('+'|'-') factor | power` (unary binds looser than `**`). -/
def pFactor : Nat → List Char → Option (PExpr × List Char)
  | 0, _ => none
  | f + 1, cs =>
    match skipWs cs with
    | '+' :: r =>
      match pFactor f r with
      | some (b, r2) => some (.pos b, r2)
      | none => none
    | '-' :: r =>
      match pFactor f r with
      | some (b, r2) => some (.neg b, r2)
      | none => none
    | cs2 => pPower f cs2
termination_by structural f cs => f

/-- Production `power := atom ['**' factor]` (right associative via the factor). -/
def pPower : Nat → List Char → Option (PExpr × List Char)
  | 0, _ => none
  | f + 1, cs =>
    match pAtom f cs with
    | some (a, r) =>
      match skipWs r with
      | '*' :: '*' :: r2 =>
        match pFactor f r2 with
        | some (b, r3) => some (.bin .pow a b, r3)
        | none => none
      | _ => some (a, r)
    | none => none
termination_by structural f cs => f

/-- Production `atom := NUMBER | '(' expr ')'`. -/
def pAtom : Nat → List Char → Option (PExpr × List Char)
  | 0, _ => none
  | f + 1, cs =>
    match skipWs cs with
    | '(' :: r =>
      match pExpr f r with
      | some (e, r2) =>
        match skipWs r2 with
        | ')' :: r3 => some (e, r3)
        | _ => none
      | none => none
    | cs2 =>
      match parseNumber cs2 with
      | some (q, r) => some (.num q, r)
      | none => none
termination_by structural f cs => f

end

/-- Strip a single leading `=` (after stripping whitespace), as
`safe_eval_numeric` and the `ROUND` matchers do. -/
def strip_eq (s : String) : String :=
  match (strTrim s).data with
  | '=' :: r => strTrim (String.mk r)
  | t => String.mk t

/-- Parse a whole string as one restricted expression; models
`ast.parse(expr, mode="eval")` followed by the `allowed_nodes` walk. -/
def parse_expr_text (s : String) : Option PExpr :=
  match pExpr (8 * (s.data.length + 1)) s.data with
  | some (t, rest) => if skipWs rest = [] then some t else none
  | none => none

/-- Model of `safe_eval_numeric` (audit.py): strip a leading `=`, parse the
restricted grammar, evaluate; any parse rejection or evaluation error
yields `none`. -/
def safe_eval_numeric (expr : String) : Option ℚ :=
  match parse_expr_text (strip_eq expr) with
  | none => none
  | some t => (evalE t).toOption

/-! ### The rounding resolver -/

/-- Tail `,\s*(-?\d+)\s*\)` of the `parse_round_digits` pattern, anchored
at the head (search pattern: the remainder is unconstrained). -/
def commaDigitsTail (cs : List Char) : Option Int :=
  match cs with
  | ',' :: r1 =>
    let r2 := skipWsR r1
    let (sgn, r3) : Bool × List Char :=
      match r2 with
      | '-' :: r => (true, r)
      | _ => (false, r2)
    let (ds, r4) := r3.span Char.isDigit
    if ds.isEmpty then none
    else
      match skipWsR r4 with
      | ')' :: _ => some (if sgn then -(digitsToNat ds : Int) else (digitsToNat ds : Int))
      | _ => none
  | _ => none

/-- Lazy `.*?` scan: the first position whose tail matches wins; `.` does
not cross a newline. -/
def lazyFind : List Char → Option Int
  | [] => none
  | c :: rest =>
    match commaDigitsTail (c :: rest) with
    | some d => some d
    | none => if c = '\n' then none else lazyFind rest

/-- After a case-insensitive `ROUND`: `\s*` then `(` then the lazy scan. -/
def prdAfterRound (cs : List Char) : Option Int :=
  match skipWsR cs with
  | '(' :: r => lazyFind r
  | _ => none

/-- Search every starting position for the `parse_round_digits` pattern. -/
def prdSearch : List Char → Option Int
  | [] => none
  | c :: rest =>
    match
      (match matchCI ['r', 'o', 'u', 'n', 'd'] (c :: rest) with
       | some r => prdAfterRound r
       | none => none) with
    | some d => some d
    | none => prdSearch rest

/-- Model of `parse_round_digits` (audit.py):
`re.search(r"ROUND\s*\(.*?,\s*(-?\d+)\s*\)", formula, re.IGNORECASE)`. -/
def parse_round_digits (formula : String) : Option Int :=
  if formula = "" then none else prdSearch formula.data

/-- Model of `get_round_digits_for_row` (audit.py). -/
def get_round_digits_for_row (e_formula : String) (default_digits : Int) : Int :=
  (parse_round_digits e_formula).getD default_digits

/-- The anchored cell-reference-with-multiplier body of
`eval_e_round_ref_formula`'s pattern, after the `ROUND` keyword:
`\(\s*([A-Za-z]{1,3}\d+)\s*(?:\*\s*([0-9]+(?:\.[0-9]+)?))?\s*,\s*(-?\d+)\s*\)\s*$`.
Returns (reference cell as matched, multiplier, digits). -/
def matchRoundRefBody (cs : List Char) : Option (String × ℚ × Int) :=
  match skipWsR cs with
  | '(' :: r1 =>
    let r2 := skipWsR r1
    let (ls, r3) := r2.span Char.isAlpha
    if ls.isEmpty || 3 < ls.length then none
    else
      let (ds, r4) := r3.span Char.isDigit
      if ds.isEmpty then none
      else
        let refCell := String.mk (ls ++ ds)
        let r5 := skipWsR r4
        let multRest : Option (ℚ × List Char) :=
          match r5 with
          | '*' :: r6 =>
            match parsePlainDecimal (skipWsR r6) with
            | some (q, r7) => some (q, r7)
            | none => none
          | _ => some (1, r5)
        match multRest with
        | none => none
        | some (mult, r8) =>
          match skipWsR r8 with
          | ',' :: r9 =>
            let r10 := skipWsR r9
            let (sgn, r11) : Bool × List Char :=
              match r10 with
              | '-' :: r => (true, r)
              | _ => (false, r10)
            let (eds, r12) := r11.span Char.isDigit
            if eds.isEmpty then none
            else
              match skipWsR r12 with
              | ')' :: r13 =>
                if skipWsR r13 = [] then
                  some (refCell, mult,
                    if sgn then -(digitsToNat eds : Int) else (digitsToNat eds : Int))
                else none
              | _ => none
          | _ => none
  | _ => none

/-- A snapshot of the value view of the sheet: `as_float` of each cell's
cached value, by (upper-case) cell name. -/
def ValueView := String → Option ℚ

/-- Model of `eval_e_round_ref_formula` (audit.py): `=ROUND(cell[*mult], digits)`
evaluated against the referenced cell's cached value.
Returns (expected, reference cell, multiplier, digits). -/
def eval_e_round_ref_formula (vv : ValueView) (e_formula : String) :
    Option (ℚ × String × ℚ × Int) :=
  if e_formula = "" then none
  else
    match matchCI ['r', 'o', 'u', 'n', 'd'] (strip_eq e_formula).data with
    | none => none
    | some body =>
      match matchRoundRefBody body with
      | none => none
      | some (refCell, mult, digits) =>
        let refUp := strUpper refCell
        match vv refUp with
        | none => none
        | some v => some (py_round (qmul v mult) digits, refUp, mult, digits)

/-- Tail `\s*,\s*(-?\d+)\s*\)\s*$` used when splitting the greedy
`ROUND\s*\(\s*(.+)\s*,\s*(-?\d+)\s*\)\s*$` pattern. -/
def pureTail (cs : List Char) : Option Int :=
  match skipWsR cs with
  | ',' :: r1 =>
    let r2 := skipWsR r1
    let (sgn, r3) : Bool × List Char :=
      match r2 with
      | '-' :: r => (true, r)
      | _ => (false, r2)
    let (ds, r4) := r3.span Char.isDigit
    if ds.isEmpty then none
    else
      match skipWsR r4 with
      | ')' :: r5 =>
        if skipWsR r5 = [] then
          some (if sgn then -(digitsToNat ds : Int) else (digitsToNat ds : Int))
        else none
      | _ => none
  | _ => none

/-- Greedy `(.+)`: the largest newline-free prefix whose tail matches. -/
def bestSplitAux (cs : List Char) : Nat → Option (List Char × Int)
  | 0 => none
  | k + 1 =>
    let inner := cs.take (k + 1)
    match (if inner.contains '\n' then none else pureTail (cs.drop (k + 1))) with
    | some d => some (inner, d)
    | none => bestSplitAux cs k

/-- Model of `eval_e_round_pure_formula` (audit.py): `=ROUND(pure expression, n)`
with no cell reference inside; evaluates the inner expression. -/
def eval_e_round_pure_formula (e_formula : String) : Option (ℚ × Int) :=
  if e_formula = "" then none
  else
    match matchCI ['r', 'o', 'u', 'n', 'd'] (strip_eq e_formula).data with
    | none => none
    | some body =>
      match skipWsR body with
      | '(' :: r1 =>
        let r2 := skipWsR r1
        match bestSplitAux r2 r2.length with
        | none => none
        | some (innerChars, digits) =>
          let inner := strTrim (String.mk innerChars)
          if has_cell_reference inner then none
          else
            match safe_eval_numeric inner with
            | none => none
            | some v => some (py_round v digits, digits)
      | _ => none

/-! ### Row classification and the unit/weight heuristics -/

/-- The audit's rule configuration (the keys read from `rules.yml`).
The percent-extraction pattern is modelled at its configured default
`(\d+(\.\d+)?)%` (see `percentFirst`). -/
structure Rules where
  material_keywords_any : List String
  installation_keywords_any : List String
  allowance_multiplier_map : List (String × ℚ)
  round_default_digits : Int
  policy_installation_has_allowance_severity : String
deriving DecidableEq

/-- Model of `classify_row_type` (audit.py): keyword classification over the
lower-cased concatenation of work, spec, unit and remarks. -/
def classify_row_type (work spec unit bigo : String) (rules : Rules) : String :=
  let text := strLower (work ++ " " ++ spec ++ " " ++ unit ++ " " ++ bigo)
  let material_keys := rules.material_keywords_any.map strLower
  let install_keys := rules.installation_keywords_any.map strLower
  if !material_keys.isEmpty && material_keys.any (fun k => strContains text k) then "material"
  else if !install_keys.isEmpty && install_keys.any (fun k => strContains text k) then
    "installation"
  else "unknown"

/-- A word character for the `\b` boundaries in the unit/weight regexes. -/
def isWordChar (c : Char) : Bool := c.isAlphanum || c = '_'

/-- Does the character after a match keep the `\b` boundary? -/
def boundaryAfter : List Char → Bool
  | [] => true
  | c :: _ => !isWordChar c

/-- Tail of `\bT\s*\d+(\.\d+)?\b` after the `T` (with the backtracking on
the optional fraction). -/
def tNumTail (cs : List Char) : Bool :=
  let r1 := cs.dropWhile Char.isWhitespace
  let (d1, r2) := r1.span Char.isDigit
  if d1.isEmpty then false
  else
    match r2 with
    | '.' :: r3 =>
      let (d2, r4) := r3.span Char.isDigit
      if !d2.isEmpty && boundaryAfter r4 then true else boundaryAfter r2
    | _ => boundaryAfter r2

/-- Search for `\bT\s*\d+(\.\d+)?\b` (case-insensitive). -/
def scanTNum : Option Char → List Char → Bool
  | _, [] => false
  | prev, c :: rest =>
    ((c = 'T' || c = 't') &&
      (match prev with
       | none => true
       | some p => !isWordChar p) &&
      tNumTail rest) ||
    scanTNum (some c) rest

/-- Model of `re.search(r"\bT\s*\d+(\.\d+)?\b", spec, re.IGNORECASE)`. -/
def hasTNum (s : String) : Bool := scanTNum none s.data

/-- Tail of `\bD\s*\d+\b` after the `D`. -/
def dNumTail (cs : List Char) : Bool :=
  let r1 := cs.dropWhile Char.isWhitespace
  let (d1, r2) := r1.span Char.isDigit
  !d1.isEmpty && boundaryAfter r2

/-- Search for `\bD\s*\d+\b` (case-insensitive). -/
def scanDNum : Option Char → List Char → Bool
  | _, [] => false
  | prev, c :: rest =>
    ((c = 'D' || c = 'd') &&
      (match prev with
       | none => true
       | some p => !isWordChar p) &&
      dNumTail rest) ||
    scanDNum (some c) rest

/-- Model of `re.search(r"\bD\s*\d+\b", spec, re.IGNORECASE)`. -/
def hasDNum (s : String) : Bool := scanDNum none s.data

/-- Model of `unit_weight_check` (audit.py): (severity, reason, rule name) triples. -/
def unit_weight_check (work spec unit : String) : List (String × String × String) :=
  let w := strLower (work ++ " " ++ spec)
  let u := strLower (strTrim unit)
  if strContains (work ++ " " ++ spec) "아연도각관" then
    if u = "kg" then
      [("HIGH", "아연도각관은 m 단가 처리 가능 품목인데 kg 단위로 입력됨", "unit_weight:아연도각관")]
    else []
  else
    (if (strContains w "st pl" || strContains w "sts pl") && !hasTNum spec then
      [("MEDIUM", "PL 품목인데 규격에 두께(T값) 정보가 없음", "unit_weight:plate-thickness")]
    else []) ++
    (if strContains w "angle" && (u = "m" || u = "m2" || u = "㎡") then
      [("LOW", "angle 품목은 39.65 kg/m2 기준 검토 대상", "unit_weight:angle-39.65")]
    else []) ++
    (if strContains w "이형철근" && !hasDNum spec then
      [("MEDIUM", "이형철근 품목인데 규격에 D값이 없음", "unit_weight:rebar-diameter")]
    else [])

/-! ### The reconciliation engine -/

/-- Model of `ErrorRecord` (audit.py): one structured discrepancy. -/
structure ErrorRecord where
  row : Nat
  cell : String
  check_type : String
  reason : String
  severity : String
  related_formula : String
  actual_value : Option ℚ
  expected_value : Option ℚ
  difference : Option ℚ
  tol : Option ℚ
  rule_name : String
deriving DecidableEq

/-- One input row as read by `main` (audit.py, lines 416-422): the six
tracked text fields plus the cached numeric value of the quantity cell. -/
structure Row where
  idx : Nat
  work : String
  spec : String
  d_text : String
  e_formula : String
  unit : String
  bigo : String
  e_value : Option ℚ

/-- The basis evaluation as performed at every engine call site
(audit.py lines 461-462 and 588-589):
`if d_text and not has_cell_reference(d_text): safe_eval_numeric(d_text)`. -/
def eval_basis (d_text : String) : Option ℚ :=
  if d_text ≠ "" && !has_cell_reference d_text then safe_eval_numeric d_text else none

/-- Stage (1) of the row loop (audit.py lines 437-465): the expected value
for `calc_text_check`, together with the (possibly re-derived) rounding
digit count and the rule-name label.  The three branches: the
`ROUND(cell*mult, n)` form, the pure `ROUND(expr, n)` form, then the
rounded basis text. -/
def calc_stage (rules : Rules) (vv : ValueView) (e_formula d_text : String) :
    Option ℚ × Int × String :=
  match eval_e_round_ref_formula vv e_formula with
  | some (expected, ref_cell, mult, digits) =>
    (some expected, digits,
      "E:ROUND(" ++ ref_cell ++ "*" ++ toString mult ++ "," ++ toString digits ++ ")")
  | none =>
    match eval_e_round_pure_formula e_formula with
    | some (expected, digits) =>
      (some expected, digits, "E:ROUND(pure_expr," ++ toString digits ++ ")")
    | none =>
      let rd := get_round_digits_for_row e_formula rules.round_default_digits
      match eval_basis d_text with
      | some v => (some (py_round v rd), rd, "D_round(" ++ toString rd ++ ")")
      | none => (none, rd, "")

/-- The `calc_text_check` records of one row (audit.py lines 467-484). -/
def calc_records (r : Nat) (d_text e_formula bigo : String)
    (stage : Option ℚ × Int × String) (e_value : Option ℚ) : List ErrorRecord :=
  match stage.1, e_value with
  | some expected, some ev =>
    let rd := stage.2.1
    let tol := tol_from_round_digits rd
    let diff := qabs (qsub expected ev)
    if tol < diff then
      [{ row := r
         cell := "D" ++ toString r ++ "/E" ++ toString r
         check_type := "calc_text_check"
         reason := "계산 기대값(ROUND " ++ toString rd ++ ")과 E 수량 불일치"
         severity := "HIGH"
         related_formula := "D:" ++ d_text ++ " | E:" ++ e_formula ++ " | BIGO:" ++ bigo
         actual_value := some ev
         expected_value := some expected
         difference := some diff
         tol := some tol
         rule_name := if stage.2.2 = "" then "ROUND(" ++ toString rd ++ ") 비교" else stage.2.2 }]
    else []
  | _, _ => []

/-- The `unit_weight` records of one row (audit.py lines 489-499). -/
def unit_records (r : Nat) (work spec unit : String) : List ErrorRecord :=
  (unit_weight_check work spec unit).map (fun t =>
    { row := r
      cell := "F" ++ toString r
      check_type := "unit_weight"
      reason := t.2.1
      severity := t.1
      related_formula := ""
      actual_value := none
      expected_value := none
      difference := none
      tol := none
      rule_name := t.2.2 })

/-- The expected value of the basis-driven surcharge value check
(audit.py lines 592-598): the basis value unmodified when the basis text
already embeds the multiplier, else basis times multiplier. -/
def allowance_expected (d_text : String) (d_numeric mult : ℚ) (rd : Int) : ℚ :=
  if d_has_multiplier d_text mult then py_round d_numeric rd
  else py_round (qmul d_numeric mult) rd

/-- Stage (3) of the row loop (audit.py lines 504-617): the surcharge
checks, run only when the remarks contain a percentage token. -/
def allowance_stage (rules : Rules) (vv : ValueView) (r : Nat) (row_type : String)
    (rd : Int) (d_text e_formula bigo : String) (e_value : Option ℚ) : List ErrorRecord :=
  match percentFirst bigo with
  | none => []
  | some p =>
    let percent_text := p ++ "%"
    match List.lookup percent_text rules.allowance_multiplier_map with
    | none =>
      [{ row := r
         cell := "G" ++ toString r
         check_type := "allowance_check"
         reason := "비고에 '" ++ percent_text ++ "'가 있으나 allowance_multiplier_map에 정의되지 않음"
         severity := "MEDIUM"
         related_formula := "BIGO:" ++ bigo ++ " | E:" ++ e_formula
         actual_value := none
         expected_value := none
         difference := none
         tol := none
         rule_name := "allowance_multiplier_map missing" }]
    | some multiplier =>
      let rule_name := "비고 퍼센트(" ++ percent_text ++ ")"
      if row_type = "installation" then
        [{ row := r
           cell := "E" ++ toString r
           check_type := "allowance_policy_check"
           reason := "설치품(정미량) 항목인데 비고에 할증(%)이 명시됨"
           severity := rules.policy_installation_has_allowance_severity
           related_formula := "D:" ++ d_text ++ " | E:" ++ e_formula ++ " | BIGO:" ++ bigo
           actual_value := none
           expected_value := none
           difference := none
           tol := none
           rule_name := rule_name }]
      else if row_type = "material" then
        match e_value with
        | none => []
        | some ev =>
          match eval_e_round_ref_formula vv e_formula with
          | some (expected_e, ref_cell, mult_in_e, digits_in_e) =>
            let tol2 := tol_from_round_digits digits_in_e
            (if Rat.divInt 1 1000000000 < qabs (qsub mult_in_e multiplier) then
              [{ row := r
                 cell := "E" ++ toString r
                 check_type := "allowance_check"
                 reason := "비고 할증(" ++ toString multiplier ++ ")과 E 수식 계수(" ++
                   toString mult_in_e ++ ")가 다름"
                 severity := "MEDIUM"
                 related_formula := "E:" ++ e_formula ++ " | BIGO:" ++ bigo
                 actual_value := some mult_in_e
                 expected_value := some multiplier
                 difference := some (qabs (qsub mult_in_e multiplier))
                 tol := some 0
                 rule_name := rule_name }]
            else []) ++
            (if tol2 < qabs (qsub expected_e ev) then
              [{ row := r
                 cell := "E" ++ toString r
                 check_type := "allowance_check"
                 reason := "재료 항목: E 수식(참조셀 기반) 계산값과 E 수량 불일치"
                 severity := "MEDIUM"
                 related_formula := "E:" ++ e_formula ++ " | BIGO:" ++ bigo
                 actual_value := some ev
                 expected_value := some expected_e
                 difference := some (qabs (qsub expected_e ev))
                 tol := some tol2
                 rule_name := rule_name ++ " | E참조(" ++ ref_cell ++ ")" }]
            else [])
          | none =>
            match eval_basis d_text with
            | none => []
            | some dv =>
              let expected_allow := allowance_expected d_text dv multiplier rd
              let rule2 :=
                if d_has_multiplier d_text multiplier then
                  rule_name ++ " | D already has " ++ toString multiplier
                else rule_name ++ " | D*" ++ toString multiplier
              let tol3 := tol_from_round_digits rd
              if tol3 < qabs (qsub expected_allow ev) then
                [{ row := r
                   cell := "E" ++ toString r
                   check_type := "allowance_check"
                   reason := "재료 항목: 비고 할증 적용 기대값과 E 수량 불일치"
                   severity := "MEDIUM"
                   related_formula := "D:" ++ d_text ++ " | E:" ++ e_formula ++ " | BIGO:" ++ bigo
                   actual_value := some ev
                   expected_value := some expected_allow
                   difference := some (qabs (qsub expected_allow ev))
                   tol := some tol3
                   rule_name := rule2 }]
              else []
      else []

/-- Is the row blank in all six tracked fields (the skip test,
audit.py line 424: `not any([work, spec, d_text, e_formula, unit, bigo])`
over the normalized texts)? -/
def row_is_blank (row : Row) : Bool :=
  normalize_text row.work = "" && normalize_text row.spec = "" &&
  normalize_text row.d_text = "" && normalize_text row.e_formula = "" &&
  normalize_text row.unit = "" && normalize_text row.bigo = ""

/-- The checks of one non-blank row (audit.py lines 427-617). -/
def row_checks (rules : Rules) (vv : ValueView) (row : Row) : List ErrorRecord :=
  let work := normalize_text row.work
  let spec := normalize_text row.spec
  let d_text := normalize_text row.d_text
  let e_formula := normalize_text row.e_formula
  let unit := normalize_text row.unit
  let bigo := normalize_text row.bigo
  let row_type := classify_row_type work spec unit bigo rules
  let stage := calc_stage rules vv e_formula d_text
  calc_records row.idx d_text e_formula bigo stage row.e_value ++
    unit_records row.idx work spec unit ++
    allowance_stage rules vv row.idx row_type stage.2.1 d_text e_formula bigo row.e_value

/-- One full row of the audit loop: blank rows are skipped before any
check runs (audit.py lines 424-425). -/
def processRow (rules : Rules) (vv : ValueView) (row : Row) : List ErrorRecord :=
  if row_is_blank row then [] else row_checks rules vv row

/-! ### Column detection and the table pass -/

/-- The formula view of the sheet: rows of cell text, 1-indexed access. -/
abbrev Table := List (List String)

/-- Text of cell `(r, c)` (1-indexed; out-of-range cells are empty). -/
def cellText (tbl : Table) (r c : Nat) : String := ((tbl.getD (r - 1) []).getD (c - 1) "")

/-- The detected column mapping (audit.py `detect_columns`), with its
default `B..G` assignment. -/
structure Columns where
  work : Nat
  spec : Nat
  basis : Nat
  qty : Nat
  unit : Nat
  bigo : Nat
deriving DecidableEq

/-- The default column mapping `{work B, spec C, basis D, qty E, unit F, bigo G}`. -/
def defaultColumns : Columns := ⟨2, 3, 4, 5, 6, 7⟩

/-- Column updates from one header cell (the six keyword tests of
`detect_columns`, in source order). -/
def scan_header_cell_cols (cols : Columns) (idx : Nat) (text : String) : Columns :=
  let low := strLower text
  let cols := if strContains text "공종" then { cols with work := idx } else cols
  let cols := if strContains text "규격" then { cols with spec := idx } else cols
  let cols := if strContains text "산출근거" then { cols with basis := idx } else cols
  let cols := if strContains text "수량" then { cols with qty := idx } else cols
  let cols := if strContains text "단위" then { cols with unit := idx } else cols
  let cols := if strContains text "비고" || strContains low "remark" then { cols with bigo := idx } else cols
  cols

/-- The number of keyword hits one header cell contributes. -/
def cell_hits (text : String) : Nat :=
  let low := strLower text
  (if strContains text "공종" then 1 else 0) +
  (if strContains text "규격" then 1 else 0) +
  (if strContains text "산출근거" then 1 else 0) +
  (if strContains text "수량" then 1 else 0) +
  (if strContains text "단위" then 1 else 0) +
  (if strContains text "비고" || strContains low "remark" then 1 else 0)

/-- Scan one candidate header row: thread the column updates through the
cells (1-indexed) and count the keyword hits. -/
def scan_row (cols : Columns) (idx : Nat) : List String → Columns × Nat
  | [] => (cols, 0)
  | t :: rest =>
    let step := scan_row (scan_header_cell_cols cols idx t) (idx + 1) rest
    (step.1, cell_hits t + step.2)

/-- Model of `ws.max_column`: the widest row of the table. -/
def max_col (tbl : Table) : Nat := tbl.foldr (fun row acc => max row.length acc) 0

/-- The normalized texts of row `r`, columns `1..min(max_column, 40)`. -/
def row_values (tbl : Table) (r : Nat) : List String :=
  (List.range' 1 (min (max_col tbl) 40)).map (fun c => normalize_text (cellText tbl r c))

/-- The header scan loop of `detect_columns`: rows `1..min(max_row, 20)`;
the first row with at least two hits becomes the header row; the column
mutations of every scanned row persist; without a hit the header row
falls back to `1`. -/
def detect_loop (tbl : Table) : Columns → Nat → Nat → Nat × Columns
  | cols, _, 0 => (1, cols)
  | cols, r, n + 1 =>
    let step := scan_row cols 1 (row_values tbl r)
    if 2 ≤ step.2 then (r, step.1) else detect_loop tbl step.1 (r + 1) n

/-- Model of `detect_columns` (audit.py): header auto-detection with the `B..G`
fallback. -/
def detect_columns (tbl : Table) : Nat × Columns :=
  detect_loop tbl defaultColumns 1 (min tbl.length 20)

/-- Excel column name of a 1-indexed column number (`1 → A`, `27 → AA`). -/
def colNameAux : Nat → Nat → String
  | _, 0 => ""
  | 0, _ + 1 => ""
  | f + 1, n + 1 => colNameAux f (n / 26) ++ (Char.ofNat ('A'.toNat + n % 26)).toString

/-- Excel column name (fuelled: the quotient shrinks fast). -/
def colName (n : Nat) : String := colNameAux n n

/-- The data pass of `main` over rows `header_row+1 .. max_row`. -/
def audit_rows (rules : Rules) (vv : ValueView) (tbl : Table)
    (header_row : Nat) (cols : Columns) : List ErrorRecord :=
  (List.range' (header_row + 1) (tbl.length - header_row)).flatMap (fun r =>
    processRow rules vv
      { idx := r
        work := cellText tbl r cols.work
        spec := cellText tbl r cols.spec
        d_text := cellText tbl r cols.basis
        e_formula := cellText tbl r cols.qty
        unit := cellText tbl r cols.unit
        bigo := cellText tbl r cols.bigo
        e_value := vv (colName cols.qty ++ toString r) })

/-- The whole audit of one table (audit.py `main`, after loading): detect
the header, then run every data row; the discrepancy list is the output. -/
def runAudit (rules : Rules) (tbl : Table) (vv : ValueView) : List ErrorRecord :=
  match detect_columns tbl with
  | (header_row, cols) => audit_rows rules vv tbl header_row cols

/-! ### Shared concrete configurations for the closed statements -/

/-- A small demonstration configuration: one material keyword, one
installation keyword, the `4% → 1.04` mapping, default digits 3,
default policy severity `HIGH`. -/
def rules_demo : Rules := ⟨["재료"], ["설치"], [("4%", Rat.divInt 26 25)], 3, "HIGH"⟩

/-- An empty value view. -/
def vv_none : ValueView := fun _ => none

/-- A table whose first rows contain none of the header keywords. -/
def tbl_headerless : Table := [["no", "header", "here"], ["", "x", "", "2*3", "", "", ""]]

/-- A value view giving the quantity cell `E2` the cached value `6.5`. -/
def vv_e2 : ValueView := fun s => if s = "E2" then some (Rat.divInt 13 2) else none

/-! ### Helper lemmas about the record producers -/

theorem calc_records_some (r : Nat) (d_text e_formula bigo : String) (expected : ℚ)
    (rd : Int) (rn : String) (ev : ℚ) :
    calc_records r d_text e_formula bigo (some expected, rd, rn) (some ev) =
      if tol_from_round_digits rd < qabs (qsub expected ev) then
        [{ row := r
           cell := "D" ++ toString r ++ "/E" ++ toString r
           check_type := "calc_text_check"
           reason := "계산 기대값(ROUND " ++ toString rd ++ ")과 E 수량 불일치"
           severity := "HIGH"
           related_formula := "D:" ++ d_text ++ " | E:" ++ e_formula ++ " | BIGO:" ++ bigo
           actual_value := some ev
           expected_value := some expected
           difference := some (qabs (qsub expected ev))
           tol := some (tol_from_round_digits rd)
           rule_name := if rn = "" then "ROUND(" ++ toString rd ++ ") 비교" else rn }]
      else [] := rfl

theorem calc_records_mem_check_type {r : Nat} {d_text e_formula bigo : String}
    {stage : Option ℚ × Int × String} {e_value : Option ℚ} :
    ∀ e ∈ calc_records r d_text e_formula bigo stage e_value,
      e.check_type = "calc_text_check" ∧ e.severity = "HIGH" := by
  intro e he
  simp only [calc_records] at he
  repeat' split at he
  all_goals
    first
    | exact absurd he (List.not_mem_nil e)
    | (rw [List.mem_singleton] at he; subst he; exact ⟨rfl, rfl⟩)

theorem unit_records_mem_check_type {r : Nat} {work spec unit : String} :
    ∀ e ∈ unit_records r work spec unit, e.check_type = "unit_weight" := by
  intro e he
  unfold unit_records at he
  obtain ⟨t, -, rfl⟩ := List.mem_map.mp he
  rfl

theorem allowance_stage_mem_check_type {rules : Rules} {vv : ValueView} {r : Nat}
    {row_type : String} {rd : Int} {d_text e_formula bigo : String} {e_value : Option ℚ} :
    ∀ e ∈ allowance_stage rules vv r row_type rd d_text e_formula bigo e_value,
      e.check_type = "allowance_check" ∨ e.check_type = "allowance_policy_check" := by
  intro e he
  simp only [allowance_stage] at he
  repeat' split at he
  all_goals
    first
    | exact absurd he (List.not_mem_nil e)
    | (rw [List.mem_singleton] at he; subst he;
       first
       | exact Or.inl rfl
       | exact Or.inr rfl)
    | (rw [List.mem_append] at he
       rcases he with he | he <;>
         first
         | exact absurd he (List.not_mem_nil e)
         | (rw [List.mem_singleton] at he; subst he; exact Or.inl rfl))

theorem percentFirst_empty : percentFirst "" = none := rfl

theorem row_not_blank_of_bigo {row : Row} (h : normalize_text row.bigo ≠ "") :
    row_is_blank row = false := by
  rcases hb : row_is_blank row with _ | _
  · rfl
  · unfold row_is_blank at hb
    simp only [Bool.and_eq_true, decide_eq_true_eq] at hb
    exact absurd hb.2 h

theorem processRow_not_blank {rules : Rules} {vv : ValueView} {row : Row}
    (h : row_is_blank row = false) :
    processRow rules vv row = row_checks rules vv row := by
  unfold processRow
  rw [h]
  rfl

/-! ### Claim C4 -/

/-- C4 (corrected): for every expression containing a cell-reference
token, the engine's guarded basis evaluation — the `has_cell_reference`
gate in front of `safe_eval_numeric` used at every call site — returns
not-evaluable.  (The bare `safe_eval_numeric` performs no such check; see
the counterexample.) -/
theorem c4_cell_reference_guard (s : String) (h : has_cell_reference s = true) :
    eval_basis s = none := by
  unfold eval_basis
  simp [h]

/-- C4 counterexample: `"2e3"` matches the cell-reference pattern (the
letter `e` followed by a digit), yet `safe_eval_numeric` itself evaluates
it to `2000.0`. -/
theorem c4_counterexample :
    has_cell_reference "2e3" = true ∧ safe_eval_numeric "2e3" = some 2000 := by
  exact ⟨rfl, rfl⟩

theorem c4_witness : eval_basis "A1" = none :=
  c4_cell_reference_guard "A1" rfl

/-! ### Claim C5 -/

/-- C5 counterexample: the derived tolerance has no floor of `0.01`:
already at two digits it is `0.006 < 0.01` (and at the default three
digits it is `0.0006`). -/
theorem c5_counterexample :
    tol_from_round_digits 2 = Rat.divInt 3 500 ∧
    tol_from_round_digits 2 < Rat.divInt 1 100 ∧
    tol_from_round_digits 3 < Rat.divInt 1 100 := by
  refine ⟨by decide, by decide, by decide⟩

/-- C5 (amended): the tolerance is exactly `0.6 · 10^(−d)` for every digit
count — strictly positive (never zero), but with no configured floor. -/
theorem c5_tolerance_positive (d : Int) :
    tol_from_round_digits d = 0.6 * pow10 (-d) ∧ 0 < tol_from_round_digits d := by
  constructor
  · rw [tol_from_round_digits, qmul_eq, Rat.divInt_eq_div]
    norm_num
  · exact tol_from_round_digits_pos d

/-! ### Claim C7 -/

/-- C7: the evaluator is total by construction (`String → Option ℚ`) and
never propagates an exception: on every input string, a parse rejection
yields `none`, an evaluation error of the parsed tree — e.g. division by
zero — is caught and surfaces as `none`, and a successful evaluation
surfaces as `some`. -/
theorem c7_eval_error_caught (s : String) :
    (parse_expr_text (strip_eq s) = none → safe_eval_numeric s = none) ∧
    (∀ t, parse_expr_text (strip_eq s) = some t →
      ((∃ msg, evalE t = Except.error msg) → safe_eval_numeric s = none) ∧
      (∀ v, evalE t = Except.ok v → safe_eval_numeric s = some v)) := by
  constructor
  · intro hp
    simp only [safe_eval_numeric, hp]
  · intro t hp
    constructor
    · rintro ⟨msg, hm⟩
      simp only [safe_eval_numeric, hp, hm, Except.toOption]
    · intro v hv
      simp only [safe_eval_numeric, hp, hv, Except.toOption]

theorem c7_witness : safe_eval_numeric "1/0" = none :=
  ((c7_eval_error_caught "1/0").2 (PExpr.bin BOp.div (PExpr.num 1) (PExpr.num 0)) rfl).1
    ⟨"division by zero", rfl⟩

/-! ### Claim C9 -/

/-- C9: a row matching any configured material keyword classifies as
`material`, regardless of installation matches; a row matching neither
list classifies as `unknown`. -/
theorem c9_classifier_precedence (rules : Rules) (work spec unit bigo : String) :
    ((∃ k ∈ rules.material_keywords_any,
        strContains (strLower (work ++ " " ++ spec ++ " " ++ unit ++ " " ++ bigo))
          (strLower k) = true) →
      classify_row_type work spec unit bigo rules = "material") ∧
    ((¬ ∃ k ∈ rules.material_keywords_any,
        strContains (strLower (work ++ " " ++ spec ++ " " ++ unit ++ " " ++ bigo))
          (strLower k) = true) →
      (¬ ∃ k ∈ rules.installation_keywords_any,
        strContains (strLower (work ++ " " ++ spec ++ " " ++ unit ++ " " ++ bigo))
          (strLower k) = true) →
      classify_row_type work spec unit bigo rules = "unknown") := by
  constructor
  · rintro ⟨k, hk, hc⟩
    unfold classify_row_type
    rw [if_pos]
    rw [Bool.and_eq_true, List.any_eq_true]
    refine ⟨?_, strLower k, List.mem_map_of_mem _ hk, hc⟩
    simp only [Bool.not_eq_true']
    rw [List.isEmpty_eq_false]
    exact List.ne_nil_of_mem (List.mem_map_of_mem _ hk)
  · intro hmat hins
    unfold classify_row_type
    rw [if_neg, if_neg]
    · intro hc
      rw [Bool.and_eq_true, List.any_eq_true] at hc
      obtain ⟨-, x, hx, hcx⟩ := hc
      obtain ⟨k, hk, rfl⟩ := List.mem_map.mp hx
      exact hins ⟨k, hk, hcx⟩
    · intro hc
      rw [Bool.and_eq_true, List.any_eq_true] at hc
      obtain ⟨-, x, hx, hcx⟩ := hc
      obtain ⟨k, hk, rfl⟩ := List.mem_map.mp hx
      exact hmat ⟨k, hk, hcx⟩

theorem c9_witness :
    classify_row_type "재료 설치" "" "" "" rules_demo = "material" ∧
    classify_row_type "기타" "" "" "" rules_demo = "unknown" :=
  ⟨(c9_classifier_precedence rules_demo "재료 설치" "" "" "").1 ⟨"재료", by decide, by decide⟩,
   (c9_classifier_precedence rules_demo "기타" "" "" "").2 (by decide) (by decide)⟩

/-! ### Claim C3 -/

/-- C3 counterexample: the basis `"100*1.0400000001"` evaluates to
`104.00000001` and contains no factor numerically equal to the
multiplier `1.04`, yet the expected value of the surcharge value check
is the rounded basis `104.0`, not
`round(104.00000001 × 1.04, 3) = 108.16`: the code compares factors with
a `1e-9` window, not with equality. -/
theorem c3_counterexample :
    eval_basis "100*1.0400000001" = some (Rat.divInt 10400000001 100000000) ∧
    (¬ ∃ s ∈ multCandidates (strip_commas "100*1.0400000001"),
        decFloat s = some (Rat.divInt 26 25)) ∧
    allowance_expected "100*1.0400000001" (Rat.divInt 10400000001 100000000)
        (Rat.divInt 26 25) 3 = 104 ∧
    py_round (qmul (Rat.divInt 10400000001 100000000) (Rat.divInt 26 25)) 3 =
      Rat.divInt 2704 25 ∧
    (104 : ℚ) ≠ Rat.divInt 2704 25 := by
  refine ⟨by decide, by decide, by decide, by decide, by decide⟩

/-- C3 (amended): the expected value of the surcharge value check is the
rounded basis exactly when the basis text contains a `*`-prefixed factor
within `1e-9` of the multiplier (`d_has_multiplier`); otherwise it is
`round(basis × multiplier, digits)`.  A factor numerically equal to the
multiplier always sets the flag. -/
theorem c3_no_double_surcharge (d_text : String) (dv m : ℚ) (rd : Int) :
    (d_has_multiplier d_text m = true →
      allowance_expected d_text dv m rd = py_round dv rd) ∧
    (d_has_multiplier d_text m = false →
      allowance_expected d_text dv m rd = py_round (qmul dv m) rd) ∧
    (∀ s ∈ multCandidates (strip_commas d_text), decFloat s = some m →
      d_has_multiplier d_text m = true) := by
  refine ⟨?_, ?_, ?_⟩
  · intro h
    unfold allowance_expected
    rw [h]
    rfl
  · intro h
    unfold allowance_expected
    rw [h]
    rfl
  · intro s hs hfl
    unfold d_has_multiplier
    rw [if_neg]
    · rw [List.any_eq_true]
      refine ⟨s, hs, ?_⟩
      rw [hfl]
      rw [decide_eq_true_eq, qabs_eq, qsub_eq, sub_self, abs_zero, Rat.divInt_eq_div]
      norm_num
    · intro h0
      subst h0
      simp [strip_commas, multCandidates, multScanF] at hs

theorem c3_witness :
    allowance_expected "100*1.04" 100 (Rat.divInt 26 25) 3 = py_round 100 3 :=
  (c3_no_double_surcharge "100*1.04" 100 (Rat.divInt 26 25) 3).1 (by decide)

/-! ### Claim C6 -/

/-- C6: a row is skipped — zero records, no check runs — precisely when
all six tracked fields are blank; a non-blank row always proceeds to the
checks. -/
theorem c6_blank_row_skip (rules : Rules) (vv : ValueView) (row : Row) :
    (row_is_blank row = true ↔
      (normalize_text row.work = "" ∧ normalize_text row.spec = "" ∧
       normalize_text row.d_text = "" ∧ normalize_text row.e_formula = "" ∧
       normalize_text row.unit = "" ∧ normalize_text row.bigo = "")) ∧
    (row_is_blank row = true → processRow rules vv row = []) ∧
    (row_is_blank row = false → processRow rules vv row = row_checks rules vv row) := by
  refine ⟨?_, ?_, ?_⟩
  · unfold row_is_blank
    simp only [Bool.and_eq_true, decide_eq_true_eq]
    tauto
  · intro h
    unfold processRow
    rw [h]
    rfl
  · exact processRow_not_blank

theorem c6_witness :
    processRow rules_demo vv_none ⟨1, "", "", "", "", "", "", some 6⟩ = [] :=
  (c6_blank_row_skip rules_demo vv_none ⟨1, "", "", "", "", "", "", some 6⟩).2.1 rfl

/-! ### Claim C1 -/

/-- C1: for a non-blank row whose expected quantity is computable (any of
the three `calc_stage` paths) and whose declared value is numeric, a
HIGH `calc_text_check` record is emitted iff the absolute difference
exceeds the derived tolerance. -/
theorem c1_calc_check (rules : Rules) (vv : ValueView) (row : Row) (expected : ℚ)
    (rd : Int) (rn : String) (ev : ℚ)
    (hblank : row_is_blank row = false)
    (hstage : calc_stage rules vv (normalize_text row.e_formula) (normalize_text row.d_text) =
      (some expected, rd, rn))
    (hev : row.e_value = some ev) :
    (∃ e ∈ processRow rules vv row, e.check_type = "calc_text_check" ∧ e.severity = "HIGH") ↔
      tol_from_round_digits rd < |expected - ev| := by
  rw [← qabs_qsub_eq]
  rw [processRow_not_blank hblank]
  simp only [row_checks]
  rw [hstage, hev]
  constructor
  · rintro ⟨e, he, hct, -⟩
    rw [List.mem_append] at he
    rcases he with he | he
    · rw [List.mem_append] at he
      rcases he with he | he
      · rw [calc_records_some] at he
        by_cases hC : tol_from_round_digits rd < qabs (qsub expected ev)
        · exact hC
        · rw [if_neg hC] at he
          exact absurd he (List.not_mem_nil e)
      · rw [unit_records_mem_check_type e he] at hct
        exact absurd hct (by decide)
    · rcases allowance_stage_mem_check_type e he with h | h <;>
        (rw [h] at hct; exact absurd hct (by decide))
  · intro hC
    rw [calc_records_some, if_pos hC]
    exact ⟨_, List.mem_append_left _ (List.mem_append_left _ (List.mem_singleton_self _)),
      rfl, rfl⟩

theorem c1_witness :
    ∃ e ∈ processRow rules_demo vv_none ⟨5, "x", "", "2*3", "", "", "", some (Rat.divInt 13 2)⟩,
      e.check_type = "calc_text_check" ∧ e.severity = "HIGH" :=
  (c1_calc_check rules_demo vv_none ⟨5, "x", "", "2*3", "", "", "", some (Rat.divInt 13 2)⟩
      6 3 "D_round(3)" (Rat.divInt 13 2) (by decide) (by decide) rfl).mpr
    (by rw [← qabs_qsub_eq]; decide)

/-! ### Claim C2 -/

theorem allowance_stage_installation (rules : Rules) (vv : ValueView) (r : Nat) (rd : Int)
    (d_text e_formula bigo : String) (e_value : Option ℚ) (p : String) (mult : ℚ)
    (hp : percentFirst bigo = some p)
    (hm : List.lookup (p ++ "%") rules.allowance_multiplier_map = some mult) :
    allowance_stage rules vv r "installation" rd d_text e_formula bigo e_value =
      [{ row := r
         cell := "E" ++ toString r
         check_type := "allowance_policy_check"
         reason := "설치품(정미량) 항목인데 비고에 할증(%)이 명시됨"
         severity := rules.policy_installation_has_allowance_severity
         related_formula := "D:" ++ d_text ++ " | E:" ++ e_formula ++ " | BIGO:" ++ bigo
         actual_value := none
         expected_value := none
         difference := none
         tol := none
         rule_name := "비고 퍼센트(" ++ (p ++ "%") ++ ")" }] := by
  simp only [allowance_stage, hp, hm]
  rw [if_pos trivial]

/-- C2 (corrected): for a row classified Installation whose remarks carry
a percentage token that is a key of the configured mapping, the engine
emits the surcharge-policy record with the configured severity (`HIGH`
by default) and no numeric fields, and performs no surcharge value
comparison (no `allowance_check` record). -/
theorem c2_installation_policy (rules : Rules) (vv : ValueView) (row : Row)
    (p : String) (mult : ℚ)
    (hclass : classify_row_type (normalize_text row.work) (normalize_text row.spec)
        (normalize_text row.unit) (normalize_text row.bigo) rules = "installation")
    (hp : percentFirst (normalize_text row.bigo) = some p)
    (hm : List.lookup (p ++ "%") rules.allowance_multiplier_map = some mult)
    (hsev : rules.policy_installation_has_allowance_severity = "HIGH") :
    (∃ e ∈ processRow rules vv row,
        e.check_type = "allowance_policy_check" ∧ e.severity = "HIGH" ∧
        e.actual_value = none ∧ e.expected_value = none ∧ e.difference = none) ∧
    (∀ e ∈ processRow rules vv row, e.check_type ≠ "allowance_check") := by
  have hb : normalize_text row.bigo ≠ "" := by
    intro h0
    rw [h0, percentFirst_empty] at hp
    exact Option.noConfusion hp
  have hblank := row_not_blank_of_bigo hb
  rw [processRow_not_blank hblank]
  simp only [row_checks]
  rw [hclass, allowance_stage_installation rules vv row.idx _ _ _ _ _ p mult hp hm, hsev]
  constructor
  · exact ⟨_, List.mem_append_right _ (List.mem_singleton_self _), rfl, rfl, rfl, rfl, rfl⟩
  · intro e he
    rw [List.mem_append] at he
    rcases he with he | he
    · rw [List.mem_append] at he
      rcases he with he | he
      · rw [(calc_records_mem_check_type e he).1]
        decide
      · rw [unit_records_mem_check_type e he]
        decide
    · rw [List.mem_singleton] at he
      subst he
      exact (by decide : ("allowance_policy_check" : String) ≠ "allowance_check")

theorem c2_counterexample :
    classify_row_type "설치공" "" "" "+7%" rules_demo = "installation" ∧
    percentFirst "+7%" = some "7" ∧
    (∀ e ∈ processRow rules_demo vv_none ⟨3, "설치공", "", "", "", "", "+7%", none⟩,
      e.check_type ≠ "allowance_policy_check") := by
  refine ⟨by decide, by decide, by decide⟩

theorem c2_witness :
    (∃ e ∈ processRow rules_demo vv_none ⟨3, "설치공", "", "", "", "", "+4%", none⟩,
        e.check_type = "allowance_policy_check" ∧ e.severity = "HIGH" ∧
        e.actual_value = none ∧ e.expected_value = none ∧ e.difference = none) ∧
    (∀ e ∈ processRow rules_demo vv_none ⟨3, "설치공", "", "", "", "", "+4%", none⟩,
      e.check_type ≠ "allowance_check") :=
  c2_installation_policy rules_demo vv_none ⟨3, "설치공", "", "", "", "", "+4%", none⟩
    "4" (Rat.divInt 26 25) (by decide) (by decide) (by decide) rfl

/-! ### Claim C10 -/

theorem allowance_stage_missing (rules : Rules) (vv : ValueView) (r : Nat)
    (row_type : String) (rd : Int) (d_text e_formula bigo : String) (e_value : Option ℚ)
    (p : String)
    (hp : percentFirst bigo = some p)
    (hm : List.lookup (p ++ "%") rules.allowance_multiplier_map = none) :
    allowance_stage rules vv r row_type rd d_text e_formula bigo e_value =
      [{ row := r
         cell := "G" ++ toString r
         check_type := "allowance_check"
         reason := "비고에 '" ++ (p ++ "%") ++ "'가 있으나 allowance_multiplier_map에 정의되지 않음"
         severity := "MEDIUM"
         related_formula := "BIGO:" ++ bigo ++ " | E:" ++ e_formula
         actual_value := none
         expected_value := none
         difference := none
         tol := none
         rule_name := "allowance_multiplier_map missing" }] := by
  simp only [allowance_stage, hp, hm]

/-- C10: a percentage token in the remarks that is absent from the
configured mapping produces exactly one MEDIUM `allowance_check` record
(the missing-mapping report) and suppresses the policy check and the
value check, regardless of the row's classification. -/
theorem c10_missing_mapping (rules : Rules) (vv : ValueView) (row : Row) (p : String)
    (hp : percentFirst (normalize_text row.bigo) = some p)
    (hm : List.lookup (p ++ "%") rules.allowance_multiplier_map = none) :
    (∃ rec, (processRow rules vv row).filter (fun e => e.check_type == "allowance_check") =
        [rec] ∧ rec.severity = "MEDIUM" ∧ rec.rule_name = "allowance_multiplier_map missing") ∧
    (∀ e ∈ processRow rules vv row, e.check_type ≠ "allowance_policy_check") := by
  have hb : normalize_text row.bigo ≠ "" := by
    intro h0
    rw [h0, percentFirst_empty] at hp
    exact Option.noConfusion hp
  have hblank := row_not_blank_of_bigo hb
  rw [processRow_not_blank hblank]
  simp only [row_checks]
  rw [allowance_stage_missing rules vv row.idx _ _ _ _ _ _ p hp hm]
  have hcalc :
      (calc_records row.idx (normalize_text row.d_text) (normalize_text row.e_formula)
          (normalize_text row.bigo)
          (calc_stage rules vv (normalize_text row.e_formula) (normalize_text row.d_text))
          row.e_value).filter (fun e => e.check_type == "allowance_check") = [] := by
    rw [List.filter_eq_nil_iff]
    intro a ha
    rw [(calc_records_mem_check_type a ha).1]
    decide
  have hunit :
      (unit_records row.idx (normalize_text row.work) (normalize_text row.spec)
          (normalize_text row.unit)).filter (fun e => e.check_type == "allowance_check") = [] := by
    rw [List.filter_eq_nil_iff]
    intro a ha
    rw [unit_records_mem_check_type a ha]
    decide
  constructor
  · refine
      ⟨{ row := row.idx
         cell := "G" ++ toString row.idx
         check_type := "allowance_check"
         reason := "비고에 '" ++ (p ++ "%") ++ "'가 있으나 allowance_multiplier_map에 정의되지 않음"
         severity := "MEDIUM"
         related_formula := "BIGO:" ++ normalize_text row.bigo ++ " | E:" ++
           normalize_text row.e_formula
         actual_value := none
         expected_value := none
         difference := none
         tol := none
         rule_name := "allowance_multiplier_map missing" }, ?_, rfl, rfl⟩
    rw [List.filter_append, List.filter_append, hcalc, hunit]
    rfl
  · intro e he
    rw [List.mem_append] at he
    rcases he with he | he
    · rw [List.mem_append] at he
      rcases he with he | he
      · rw [(calc_records_mem_check_type e he).1]
        decide
      · rw [unit_records_mem_check_type e he]
        decide
    · rw [List.mem_singleton] at he
      subst he
      exact (by decide : ("allowance_check" : String) ≠ "allowance_policy_check")

theorem c10_witness :
    (∃ rec,
        (processRow rules_demo vv_none ⟨3, "설치공", "", "", "", "", "+7%", none⟩).filter
            (fun e => e.check_type == "allowance_check") = [rec] ∧
          rec.severity = "MEDIUM" ∧ rec.rule_name = "allowance_multiplier_map missing") ∧
    (∀ e ∈ processRow rules_demo vv_none ⟨3, "설치공", "", "", "", "", "+7%", none⟩,
      e.check_type ≠ "allowance_policy_check") :=
  c10_missing_mapping rules_demo vv_none ⟨3, "설치공", "", "", "", "", "+7%", none⟩
    "7" (by decide) (by decide)

/-! ### Claim C8 -/

/-- The keyword-hit count of one candidate header row. -/
def hits_sum (cells : List String) : Nat := (cells.map cell_hits).sum

theorem scan_row_hits (cells : List String) : ∀ (cols : Columns) (idx : Nat),
    (scan_row cols idx cells).2 = hits_sum cells := by
  induction cells with
  | nil => intro cols idx; rfl
  | cons t rest ih =>
    intro cols idx
    simp only [scan_row, hits_sum, List.map_cons, List.sum_cons]
    rw [← hits_sum]
    exact congrArg (cell_hits t + ·) (ih _ _)

theorem detect_loop_fallback (tbl : Table) : ∀ (n r : Nat) (cols : Columns),
    (∀ k, k < n → hits_sum (row_values tbl (r + k)) < 2) →
    (detect_loop tbl cols r n).1 = 1 := by
  intro n
  induction n with
  | zero => intro r cols _; rfl
  | succ n ih =>
    intro r cols h
    have h0 : hits_sum (row_values tbl r) < 2 := by
      have := h 0 (Nat.succ_pos n)
      rwa [Nat.add_zero] at this
    simp only [detect_loop]
    rw [scan_row_hits, if_neg (by omega)]
    exact ih (r + 1) _ (fun k hk => by
      have := h (k + 1) (Nat.succ_lt_succ hk)
      rwa [show r + (k + 1) = r + 1 + k from by omega] at this)

/-- C8 (corrected): a table with no detectable header row does not abort
the audit: `detect_columns` falls back to header row 1 (with whatever
column mapping the scan produced) and the data pass proceeds normally. -/
theorem c8_no_abort (rules : Rules) (vv : ValueView) (tbl : Table)
    (h : ∀ k, k < min tbl.length 20 → hits_sum (row_values tbl (1 + k)) < 2) :
    (detect_columns tbl).1 = 1 ∧
    runAudit rules tbl vv = audit_rows rules vv tbl 1 (detect_columns tbl).2 := by
  have h1 : (detect_columns tbl).1 = 1 := detect_loop_fallback tbl _ 1 defaultColumns h
  refine ⟨h1, ?_⟩
  unfold runAudit
  rcases hdc : detect_columns tbl with ⟨hr, cols⟩
  rw [hdc] at h1
  simp only at h1
  rw [h1]

/-- C8 counterexample: on a table whose scanned rows contain no header
keywords — no detectable header — the audit does not abort and emits a
discrepancy record from the data pass, contradicting both the abort and
the no-output parts of the claim. -/
theorem c8_counterexample :
    (∀ k, k < min tbl_headerless.length 20 →
      hits_sum (row_values tbl_headerless (1 + k)) < 2) ∧
    detect_columns tbl_headerless = (1, defaultColumns) ∧
    (runAudit rules_demo tbl_headerless vv_e2).map (fun e => e.check_type) =
      ["calc_text_check"] := by
  refine ⟨by decide, by decide, by decide⟩

theorem c8_witness :
    (detect_columns tbl_headerless).1 = 1 ∧
    runAudit rules_demo tbl_headerless vv_e2 =
      audit_rows rules_demo vv_e2 tbl_headerless 1 (detect_columns tbl_headerless).2 :=
  c8_no_abort rules_demo vv_e2 tbl_headerless (by decide)

end QtyAudit
